import Mathlib

/-!
Shallow embedding of `src/SIR_models.py` (compartmental COVID models:
SIR, SIHRF, SIR_sigmoid, SEIR, LearnerSEIR).

Numeric values are modelled as exact rationals `ℚ`.  A Python/NumPy value
that is NaN or Inf (for instance the result of dividing a finite number
by zero inside a derivative) is modelled as `none : Option ℚ`; a series
cell that pandas holds as NaN is likewise `none`.  Dates are modelled as
natural numbers (day offsets), since only their order and spacing matter.
-/

/-- Division as performed on NumPy floats inside the derivative
functions: a zero denominator produces a non-finite value (Inf/NaN),
modelled as `none`. -/
def pyDiv (a b : ℚ) : Option ℚ :=
  if b = 0 then none else some (a / b)

/-! ## SIR model (`SIR.model`, src lines 163-171)

`ret = [-beta*S*I/S_0, beta*S*I/S_0 - gamma*I, gamma*I]`, where `beta`,
`gamma`, `S_0` are the trial point fields `beta_model`, `gamma_model`,
`S_0_model` set by `SIR.loss`. -/

structure SIRParams where
  beta : ℚ
  gamma : ℚ
  S_0 : ℚ
  deriving DecidableEq, Repr

/-- `SIR.model`: the derivative of `(S, I, R)`.  The only fallible
operation is the division by `S_0_model`. -/
def SIRmodel (p : SIRParams) (y : ℚ × ℚ × ℚ) : Option (ℚ × ℚ × ℚ) :=
  match pyDiv (p.beta * y.1 * y.2.1) p.S_0 with
  | none => none
  | some f => some (-f, f - p.gamma * y.2.1, p.gamma * y.2.1)

/-- The initial state `[self.S_0_model, self.I_0, self.R_0]` handed to
`solve_ivp` by `SIR.loss` (src line 185), with
`S_0_model = N * S_0p` (src line 182). -/
def SIRlossInitState (N S_0p I_0 R_0 : ℚ) : ℚ × ℚ × ℚ :=
  (N * S_0p, I_0, R_0)

/-- Sum of the three SIR compartments. -/
def sum3 (y : ℚ × ℚ × ℚ) : ℚ := y.1 + y.2.1 + y.2.2

/-- One explicit unit-length integration step for the SIR system (the
deterministic fixed-step stand-in for the adaptive `solve_ivp` run over
the unit-spaced `t_eval` grid). -/
def SIReulerStep (p : SIRParams) (y : ℚ × ℚ × ℚ) : Option (ℚ × ℚ × ℚ) :=
  (SIRmodel p y).map (fun d => (y.1 + d.1, y.2.1 + d.2.1, y.2.2 + d.2.2))

/-- Iterated integration: the state after `n` unit steps, `none` if any
step's derivative was non-finite. -/
def SIReuler (p : SIRParams) (y0 : ℚ × ℚ × ℚ) : Nat → Option (ℚ × ℚ × ℚ)
  | 0 => some y0
  | n + 1 => (SIReuler p y0 n).bind (SIReulerStep p)

/-! ## SIHRF model (`SIHRF.model`, src lines 357-385)

State `(S, I, H, R, F)`; `I_tot = I + H`. -/

structure SIHRFParams where
  beta : ℚ
  gamma_I : ℚ
  gamma_H : ℚ
  omega : ℚ
  delta : ℚ
  rho : ℚ
  S_0 : ℚ
  deriving DecidableEq, Repr

/-- `SIHRF.model`: the derivative of `(S, I, H, R, F)`. -/
def SIHRFmodel (p : SIHRFParams) (y : ℚ × ℚ × ℚ × ℚ × ℚ) :
    Option (ℚ × ℚ × ℚ × ℚ × ℚ) :=
  let I := y.2.1
  let H := y.2.2.1
  match pyDiv (p.beta * y.1 * (I + H)) p.S_0 with
  | none => none
  | some f =>
      some (-f,
            (1 - p.rho) * f - p.gamma_I * I,
            p.rho * f - (1 - p.delta) * p.gamma_H * H - p.delta * p.omega * H,
            p.gamma_I * I + (1 - p.delta) * p.gamma_H * H,
            p.delta * p.omega * H)

/-- Sum of the five SIHRF compartments. -/
def sum5 (y : ℚ × ℚ × ℚ × ℚ × ℚ) : ℚ :=
  y.1 + y.2.1 + y.2.2.1 + y.2.2.2.1 + y.2.2.2.2

/-- The initial state `[self.S_0_model, self.I_0, self.H_0, self.R_0,
self.F_0]` handed to `solve_ivp` by `SIHRF.loss` (src line 511). -/
def SIHRFlossInitState (N S_0p I_0 H_0 R_0 F_0 : ℚ) : ℚ × ℚ × ℚ × ℚ × ℚ :=
  (N * S_0p, I_0, H_0, R_0, F_0)

/-! ## pandas series primitives

A pandas `Series` restricted to its values (positional view); a cell
holding NaN is `none`. -/

/-- A pandas numeric series, positionally indexed; `none` is NaN. -/
abbrev PSeries := List (Option ℚ)

/-- `Series.shift(k)`: values move `k` positions forward, `k` NaN cells
enter at the front, the last `k` values fall off; length is preserved. -/
def pshift (k : Nat) (s : PSeries) : PSeries :=
  List.replicate (min k s.length) none ++ s.take (s.length - k)

/-- Element-wise subtraction of two series; NaN propagates. -/
def psub (a b : PSeries) : PSeries :=
  List.zipWith (fun x y =>
    match x, y with
    | some u, some v => some (u - v)
    | _, _ => none) a b

/-- Multiplication of a series by a scalar; NaN propagates. -/
def pscale (c : ℚ) (s : PSeries) : PSeries :=
  s.map (Option.map (fun v => v * c))

/-- Running-sum worker: pandas `cumsum` skips NaN cells (the cell stays
NaN, the accumulator is unchanged). -/
def pcumsumAux (acc : ℚ) : PSeries → PSeries
  | [] => []
  | none :: t => none :: pcumsumAux acc t
  | some v :: t => some (acc + v) :: pcumsumAux (acc + v) t

/-- `Series.cumsum()` with the default `skipna=True`. -/
def pcumsum (s : PSeries) : PSeries := pcumsumAux 0 s

/-! ## Hospital demand (`SIR.calculateNB`, src lines 238-245)

```
hospDemand = ((S.shift(1) - S) * hospRate).shift(daysToHosp)
hospExpire = hospDemand.shift(hospitalDuration)
H          = hospDemand.cumsum() - hospExpire.cumsum()
```
-/

/-- The daily new-hospitalization demand series of `calculateNB`. -/
def hospDemand (S : PSeries) (hospRate : ℚ) (daysToHosp : Nat) : PSeries :=
  pshift daysToHosp (pscale hospRate (psub (pshift 1 S) S))

/-- The discharge series `hospExpire` of `calculateNB`. -/
def hospExpire (S : PSeries) (hospRate : ℚ) (daysToHosp hospitalDuration : Nat) :
    PSeries :=
  pshift hospitalDuration (hospDemand S hospRate daysToHosp)

/-- The occupancy column `H` written by `calculateNB`. -/
def calculateNB_H (S : PSeries) (hospRate : ℚ)
    (daysToHosp hospitalDuration : Nat) : PSeries :=
  psub (pcumsum (hospDemand S hospRate daysToHosp))
       (pcumsum (hospExpire S hospRate daysToHosp hospitalDuration))

/-! ## Index extension (`SIR.extend_index`, src lines 116-121)

```
new_values = pd.date_range(start=index[-1], periods=new_size)
new_index  = index.join(new_values, how='outer')
```

Dates are day numbers.  `pd.date_range(start, periods=P)` is the `P`
consecutive days starting AT `start` (inclusive).  The outer join of two
increasing indices is their sorted union without duplicates; for an
increasing `index` whose last element is `start`, that union is `index`
followed by the fresh dates of the range. -/

/-- `pd.date_range(start, periods)` on day numbers. -/
def date_range (start periods : Nat) : List Nat :=
  (List.range periods).map (fun i => start + i)

/-- `SIR.extend_index`: outer-join of the observed index with the
`daysPredict`-day range starting at its last date. -/
def extend_index (index : List Nat) (new_size : Nat) : List Nat :=
  match index.getLast? with
  | none => []
  | some last => index ++ (date_range last new_size).filter
      (fun d => decide (¬ d ∈ index))

/-- `Series.reindex` cell lookup: the actual-value column of the
prediction table holds the observed value at dates present in the
observed series and NaN (`none`) elsewhere. -/
def reindexLookup (s : List (Nat × ℚ)) (d : Nat) : Option ℚ :=
  (s.find? (fun p => p.1 = d)).map Prod.snd

/-! ## SIR constraints (src lines 268-283)

The optimizer's trial point for the base SIR is `(beta, gamma, S_0p)`.
Division between NumPy floats is modelled with exact rational division
here: the constraints are only evaluated by the optimizer at interior
points with nonzero `gamma`, and the claims about them concern which
bound and which formula is used, not division edge cases. -/

/-- `SIR.const_lowerBoundR0`: `(beta/gamma) - R0bounds[0]`. -/
def const_lowerBoundR0 (R0bounds : ℚ × ℚ) (point : ℚ × ℚ × ℚ) : ℚ :=
  point.1 / point.2.1 - R0bounds.1

/-- `SIR.const_upperBoundR0`: `R0bounds[1] - (beta/gamma)`
(src line 282 reads `self.R0bounds[1]`). -/
def const_upperBoundR0 (R0bounds : ℚ × ℚ) (point : ℚ × ℚ × ℚ) : ℚ :=
  R0bounds.2 - point.1 / point.2.1

/-! ## SIHRF constraints and the two gamma formulas

The SIHRF trial point is `(beta, gamma_I, gamma_H, omega, S0, delta)`
(src line 642 unpacking order). -/

/-- A SIHRF optimizer trial point, in the source's unpacking order. -/
structure SIHRFPoint where
  beta : ℚ
  gamma_I : ℚ
  gamma_H : ℚ
  omega : ℚ
  S0 : ℚ
  delta : ℚ
  deriving DecidableEq, Repr

/-- The gamma used INSIDE the four SIHRF constraint functions
(src lines 644, 654, 665, 675):
`gamma = gamma_I + (1-delta)*gamma_H + delta*omega` — no `rho`
weighting. -/
def constraintGamma (p : SIHRFPoint) : ℚ :=
  p.gamma_I + (1 - p.delta) * p.gamma_H + p.delta * p.omega

/-- The blended gamma used by `SIHRF.estimate` (src line 458) and
`SIHRF.loss` (src line 499) for the reported aggregate R0:
`gamma = (1-rho)*gamma_I + rho*((1-delta)*gamma_H + delta*omega)`. -/
def aggregateGamma (rho : ℚ) (p : SIHRFPoint) : ℚ :=
  (1 - rho) * p.gamma_I + rho * ((1 - p.delta) * p.gamma_H + p.delta * p.omega)

/-- `SIHRF.const_lowerBound_gamma`: `gamma - gammaBounds[0]`. -/
def const_lowerBound_gamma (gammaBounds : ℚ × ℚ) (p : SIHRFPoint) : ℚ :=
  constraintGamma p - gammaBounds.1

/-- `SIHRF.const_upperBound_gamma`: `gammaBounds[1] - gamma`. -/
def const_upperBound_gamma (gammaBounds : ℚ × ℚ) (p : SIHRFPoint) : ℚ :=
  gammaBounds.2 - constraintGamma p

/-- `SIHRF.const_lowerBound_R0`: `beta/gamma - R0bounds[0]`. -/
def const_lowerBound_R0 (R0bounds : ℚ × ℚ) (p : SIHRFPoint) : ℚ :=
  p.beta / constraintGamma p - R0bounds.1

/-- `SIHRF.const_upperBound_R0`: `R0bounds[1] - beta/gamma`. -/
def const_upperBound_R0 (R0bounds : ℚ × ℚ) (p : SIHRFPoint) : ℚ :=
  R0bounds.2 - p.beta / constraintGamma p

/-- Modelled from the spec (refinement comparison only): the
lower-gamma constraint as the spec describes it, a signed margin over
the SAME rho-blended aggregate gamma that is used for the reported R0.
No source function computes this. -/
def spec_const_lowerBound_gamma (rho : ℚ) (gammaBounds : ℚ × ℚ)
    (p : SIHRFPoint) : ℚ :=
  aggregateGamma rho p - gammaBounds.1

/-! ## Threshold alignment (`SIR.load_data`, src lines 87-98)

```
nth_index = self.confirmed[self.confirmed >= self.R_0th].index[0]
```

Positional access `.index[0]` on the empty index (threshold never
reached) raises pandas/NumPy `IndexError`.  No `DataAlignmentError`
class exists anywhere in the source; the constructor below models the
spec's named error kind so the two outcomes can be compared. -/

/-- The exceptions relevant to threshold alignment.
`dataAlignmentError` is modelled from the spec (the spec's error kind
for a never-reached threshold); the source defines no such class. -/
inductive AlignError where
  | indexError : AlignError
  | dataAlignmentError : AlignError
  deriving DecidableEq, Repr

/-- The `nth_index` computation of `SIR.load_data`: filter the
(multiplier-adjusted) confirmed series to values `≥ nth` and take the
first surviving date; an empty filter result raises `IndexError`. -/
def nth_index (confirmed : List (Nat × ℚ)) (nth : ℚ) :
    Except AlignError Nat :=
  match (confirmed.filter (fun p => decide (nth ≤ p.2))).head? with
  | some p => Except.ok p.1
  | none => Except.error AlignError.indexError

/-! ## LearnerSEIR initial parameters (`LearnerSEIR.load_data`,
src lines 1036-1044)

```
self.E_0 = self.confirmed.iloc[self.elag]
self.R_0 = self.recovered[0] + self.fatal[0]
self.I_0 = (self.confirmed.iloc[0] - self.R_0)
self.S_0 = self.R_0 - self.R_0 - self.I_0
```

The three aligned series are modelled positionally as value lists (all
observed, hence NaN-free). -/

structure SEIRInit where
  E_0 : ℚ
  R_0 : ℚ
  I_0 : ℚ
  S_0 : ℚ
  deriving DecidableEq, Repr

/-- The initial-parameter block computed at the end of
`LearnerSEIR.load_data`. -/
def learnerSEIRInit (confirmed recovered fatal : List ℚ) (elag : Nat)
    (he : elag < confirmed.length) (h0 : 0 < confirmed.length)
    (hr : 0 < recovered.length) (hf : 0 < fatal.length) : SEIRInit :=
  let R_0 := recovered.get ⟨0, hr⟩ + fatal.get ⟨0, hf⟩
  let I_0 := confirmed.get ⟨0, h0⟩ - R_0
  { E_0 := confirmed.get ⟨elag, he⟩
    R_0 := R_0
    I_0 := I_0
    S_0 := R_0 - R_0 - I_0 }

/-- The initial state `[self.S_0, self.E_0, self.I_0, self.R_0]` handed
to `solve_ivp` by both `LearnerSEIR.loss` (src line 1130) and
`LearnerSEIR.predict` (src line 1191). -/
def learnerSEIRInitState (ps : SEIRInit) : ℚ × ℚ × ℚ × ℚ :=
  (ps.S_0, ps.E_0, ps.I_0, ps.R_0)

/-! ## `SIR.predict` as explicit state passing (src lines 195-227, 238-245)

`predict` reads the fitted fields and MUTATES `beta_model`,
`gamma_model`, `S_0_model`, `quarantine_loc` and `df` on `self`.  The
embedding threads the object state explicitly: `SIRpredict` returns the
mutated object together with the table it stores in `self.df`.
`solve_ivp` over the unit-spaced `t_eval` grid is modelled by the
deterministic fixed-step trajectory `SIRtrajectory`; determinism of the
integrator is exactly what is under scrutiny, and `solve_ivp` carries no
random or ambient state either. -/

/-- Compartment values at the `size` unit-spaced evaluation points. -/
def SIRtrajectory (p : SIRParams) (y0 : ℚ × ℚ × ℚ) (size : Nat) :
    List (Option (ℚ × ℚ × ℚ)) :=
  (List.range size).map (SIReuler p y0)

/-- One row of the SIR prediction table: `I_Actual`, `R_Actual`, the
simulated `(S, I, R)` triple, and the derived `H` column appended by
`calculateNB`. -/
abbrev SIRRow := Option ℚ × Option ℚ × Option (ℚ × ℚ × ℚ) × Option ℚ

abbrev SIRTable := List SIRRow

/-- The mutable state of a fitted `SIR` object, restricted to the
fields `predict`/`calculateNB` read or write. -/
structure SIRObj where
  beta : ℚ
  gamma : ℚ
  S_0 : ℚ
  I_0 : ℚ
  R_0 : ℚ
  beta_model : ℚ
  gamma_model : ℚ
  S_0_model : ℚ
  quarantine_loc : ℚ
  quarantineDate : Nat
  confirmedIndex : List Nat
  I_actual : List (Nat × ℚ)
  R_actual : List (Nat × ℚ)
  daysPredict : Nat
  hospRate : ℚ
  daysToHosp : Nat
  hospitalDuration : Nat
  df : SIRTable

/-- `SIR.predict` followed by the `calculateNB` it invokes: returns the
object after mutation together with the stored prediction table. -/
def SIRpredict (s : SIRObj) : SIRObj × SIRTable :=
  let new_index := extend_index s.confirmedIndex s.daysPredict
  let size := new_index.length
  let s1 : SIRObj :=
    { s with beta_model := s.beta, gamma_model := s.gamma,
             S_0_model := s.S_0,
             quarantine_loc := ((s.confirmedIndex.indexOf s.quarantineDate : Nat) : ℚ) }
  let traj := SIRtrajectory ⟨s1.beta_model, s1.gamma_model, s1.S_0_model⟩
      (s.S_0, s.I_0, s.R_0) size
  let Scol : PSeries := traj.map (Option.map (fun y => y.1))
  let Hcol := calculateNB_H Scol s.hospRate s.daysToHosp s.hospitalDuration
  let rows : SIRTable := List.zipWith
      (fun (p : Nat × Option (ℚ × ℚ × ℚ)) (h : Option ℚ) =>
        (reindexLookup s.I_actual p.1, reindexLookup s.R_actual p.1, p.2, h))
      (new_index.zip traj) Hcol
  ({ s1 with df := rows }, rows)

/-! ## `SIHRF.predict` as explicit state passing (src lines 523-553)

Unlike `SIR.predict`, `SIHRF.predict` does NOT refresh the `*_model`
trial fields before integrating: it integrates `self.model` with
whatever trial point the last loss evaluation left behind, and mutates
only `quarantine_loc` and `df`.  The embedding mirrors this. -/

/-- One unit-length integration step for the SIHRF system. -/
def SIHRFeulerStep (p : SIHRFParams) (y : ℚ × ℚ × ℚ × ℚ × ℚ) :
    Option (ℚ × ℚ × ℚ × ℚ × ℚ) :=
  (SIHRFmodel p y).map (fun d =>
    (y.1 + d.1, y.2.1 + d.2.1, y.2.2.1 + d.2.2.1,
     y.2.2.2.1 + d.2.2.2.1, y.2.2.2.2 + d.2.2.2.2))

/-- Iterated SIHRF integration. -/
def SIHRFeuler (p : SIHRFParams) (y0 : ℚ × ℚ × ℚ × ℚ × ℚ) :
    Nat → Option (ℚ × ℚ × ℚ × ℚ × ℚ)
  | 0 => some y0
  | n + 1 => (SIHRFeuler p y0 n).bind (SIHRFeulerStep p)

/-- SIHRF compartment values at the `size` unit-spaced evaluation
points. -/
def SIHRFtrajectory (p : SIHRFParams) (y0 : ℚ × ℚ × ℚ × ℚ × ℚ)
    (size : Nat) : List (Option (ℚ × ℚ × ℚ × ℚ × ℚ)) :=
  (List.range size).map (SIHRFeuler p y0)

/-- One row of the SIHRF prediction table: `I_Actual`, `R_Actual`,
`F_Actual`, the simulated `(S, IN, H, R, F)` tuple, and the derived
`I = IN + H` column. -/
abbrev SIHRFRow :=
  Option ℚ × Option ℚ × Option ℚ × Option (ℚ × ℚ × ℚ × ℚ × ℚ) × Option ℚ

abbrev SIHRFTable := List SIHRFRow

/-- The mutable state of a fitted `SIHRF` object, restricted to the
fields `predict` reads or writes. -/
structure SIHRFObj where
  beta_model : ℚ
  gamma_I_model : ℚ
  gamma_H_model : ℚ
  omega_model : ℚ
  delta_model : ℚ
  S_0_model : ℚ
  rho : ℚ
  S_0 : ℚ
  I_0 : ℚ
  H_0 : ℚ
  R_0 : ℚ
  F_0 : ℚ
  quarantine_loc : ℚ
  quarantineDate : Nat
  confirmedIndex : List Nat
  I_actual : List (Nat × ℚ)
  R_actual : List (Nat × ℚ)
  F_actual : List (Nat × ℚ)
  daysPredict : Nat
  df : SIHRFTable

/-- `SIHRF.predict`: returns the object after mutation together with
the stored prediction table. -/
def SIHRFpredict (s : SIHRFObj) : SIHRFObj × SIHRFTable :=
  let new_index := extend_index s.confirmedIndex s.daysPredict
  let size := new_index.length
  let s1 : SIHRFObj :=
    { s with quarantine_loc := ((s.confirmedIndex.indexOf s.quarantineDate : Nat) : ℚ) }
  let traj := SIHRFtrajectory
      ⟨s.beta_model, s.gamma_I_model, s.gamma_H_model, s.omega_model,
       s.delta_model, s.rho, s.S_0_model⟩
      (s.S_0, s.I_0, s.H_0, s.R_0, s.F_0) size
  let rows : SIHRFTable := List.map
      (fun (p : Nat × Option (ℚ × ℚ × ℚ × ℚ × ℚ)) =>
        (reindexLookup s.I_actual p.1, reindexLookup s.R_actual p.1,
         reindexLookup s.F_actual p.1, p.2,
         p.2.map (fun y => y.2.1 + y.2.2.1)))
      (new_index.zip traj)
  ({ s1 with df := rows }, rows)

/-! ## `SIHRF.rollingHosp` (src lines 555-573)

```
I_actual = self.I_actual.copy()
R_actual = self.R_actual.copy()
F_actual = self.R_actual.copy()          # note: copied from R_actual
for date in self.confirmed.index:
    self.I_actual = I_actual.loc[:date]
    self.R_actual = R_actual.loc[:date]
    self.F_actual = F_actual.loc[:date]
    self.estimate(...); self.predict(); ...
```

The loop is embedded as explicit state threading over the three
date-keyed actual series; each iteration records the `(I_actual,
R_actual, F_actual)` triple the estimator is invoked on. -/

/-- `series.loc[:date]`: restriction to dates `≤ date`. -/
def locUpTo (s : List (Nat × ℚ)) (d : Nat) : List (Nat × ℚ) :=
  s.filter (fun p => decide (p.1 ≤ d))

/-- The actual-series fields of a `SIHRF` object mutated by
`rollingHosp`. -/
structure RHObj where
  I_actual : List (Nat × ℚ)
  R_actual : List (Nat × ℚ)
  F_actual : List (Nat × ℚ)
  deriving DecidableEq, Repr

/-- The walk-forward loop body of `rollingHosp`, threading the object
state and collecting, per date, the series triple handed to
`estimate`. -/
def rollingHospLoop (Isnap Rsnap Fsnap : List (Nat × ℚ)) :
    List Nat → RHObj → List RHObj × RHObj
  | [], st => ([], st)
  | d :: ds, _st =>
      let st1 : RHObj :=
        ⟨locUpTo Isnap d, locUpTo Rsnap d, locUpTo Fsnap d⟩
      let rest := rollingHospLoop Isnap Rsnap Fsnap ds st1
      (st1 :: rest.1, rest.2)

/-- `SIHRF.rollingHosp`, restricted to the data flow into `estimate`:
the snapshots are taken before the loop, the fatal snapshot from
`self.R_actual` (src line 561), and the loop is run over the confirmed
date index.  Returns the per-date estimator inputs. -/
def rollingHospInputs (st : RHObj) (dates : List Nat) : List RHObj :=
  (rollingHospLoop st.I_actual st.R_actual st.R_actual dates st).1

/-- The synthetic susceptible curve of the hospital-demand test: a
20-day series with a single-day unit drop at day 7
(`S[t] = 1` for `t < 7`, `S[t] = 0` for `t ≥ 7`). -/
def unitDropS : PSeries :=
  [some 1, some 1, some 1, some 1, some 1, some 1, some 1,
   some 0, some 0, some 0, some 0, some 0, some 0, some 0,
   some 0, some 0, some 0, some 0, some 0, some 0]

/-! # Theorems -/

/-! ## Helper lemmas -/

/-- Every member of a strictly increasing list is at most its last
element. -/
theorem mem_le_getLast {l : List Nat} (hl : l.Sorted (· < ·)) {x : Nat}
    (hx : x ∈ l) (h : l ≠ []) : x ≤ l.getLast h := by
  induction l with
  | nil => cases hx
  | cons a t ih =>
    cases t with
    | nil =>
      simp only [List.mem_singleton] at hx
      simp [hx, List.getLast]
    | cons b u =>
      rw [List.getLast_cons (by simp)]
      rcases List.mem_cons.mp hx with rfl | hx2
      · have h1 : ∀ y ∈ b :: u, x < y := (List.sorted_cons.mp hl).1
        exact le_of_lt (h1 _ (List.getLast_mem (by simp)))
      · exact ih (List.sorted_cons.mp hl).2 hx2 (by simp)

/-- Splitting off the first day of a date range. -/
theorem date_range_succ (start m : Nat) :
    date_range start (m + 1) = start :: date_range (start + 1) m := by
  unfold date_range
  rw [List.range_succ_eq_map, List.map_cons, List.map_map]
  congr 1
  apply List.map_congr_left
  intro i _
  simp only [Function.comp_apply]
  omega

/-- Membership in a date range. -/
theorem mem_date_range {start m x : Nat} (hx : x ∈ date_range start m) :
    start ≤ x := by
  simp only [date_range, List.mem_map, List.mem_range] at hx
  obtain ⟨i, _, rfl⟩ := hx
  exact Nat.le_add_right _ _

/-- The collected estimator inputs of the rolling loop depend only on
the snapshots, not on the threaded object state. -/
theorem rollingHospLoop_fst (Isnap Rsnap Fsnap : List (Nat × ℚ)) :
    ∀ (dates : List Nat) (st : RHObj),
      (rollingHospLoop Isnap Rsnap Fsnap dates st).1 =
        dates.map (fun d =>
          ⟨locUpTo Isnap d, locUpTo Rsnap d, locUpTo Fsnap d⟩) := by
  intro dates
  induction dates with
  | nil => intro st; rfl
  | cons d ds ih =>
    intro st
    simp only [rollingHospLoop, List.map_cons]
    exact congrArg _ (ih _)

/-! ## Claim C1 -/

/-- C1 counterexample: the initial state handed to the integrator by
`SIR.loss` does NOT sum to the total population `N`.  With `N = 100`,
`S_0p = 1/10`, `I_0 = 5`, `R_0 = 0` the state is `(10, 5, 0)`, whose sum
is `15`, not `100`. -/
theorem claim_C1_counterexample :
    sum3 (SIRlossInitState 100 (1 / 10) 5 0) ≠ 100 := by
  norm_num [sum3, SIRlossInitState]

/-- C1 (amended): the components of the derivative vector returned by
`SIR.model` and by `SIHRF.model` sum to zero at every state where the
derivative is finite; consequently the sum of compartments is conserved
along any integration run at its INITIAL value
`S_0_model + I_0 + R_0 = N * S_0p + I_0 + R_0` — which need not equal
the total population `N`. -/
theorem claim_C1_amended :
    (∀ (p : SIRParams) (y d : ℚ × ℚ × ℚ),
      SIRmodel p y = some d → sum3 d = 0) ∧
    (∀ (q : SIHRFParams) (y d : ℚ × ℚ × ℚ × ℚ × ℚ),
      SIHRFmodel q y = some d → sum5 d = 0) ∧
    (∀ (p : SIRParams) (y0 z : ℚ × ℚ × ℚ) (n : Nat),
      SIReuler p y0 n = some z → sum3 z = sum3 y0) := by
  have hSIR : ∀ (p : SIRParams) (y d : ℚ × ℚ × ℚ),
      SIRmodel p y = some d → sum3 d = 0 := by
    intro p y d h
    unfold SIRmodel pyDiv at h
    by_cases hS : p.S_0 = 0
    · simp [hS] at h
    · simp only [hS, if_neg, ite_false] at h
      injection h with h
      subst h
      simp [sum3]
      ring
  refine ⟨hSIR, ?_, ?_⟩
  · intro q y d h
    unfold SIHRFmodel pyDiv at h
    by_cases hS : q.S_0 = 0
    · simp [hS] at h
    · simp only [hS, if_neg, ite_false] at h
      injection h with h
      subst h
      simp [sum5]
      ring
  · intro p y0 z n
    induction n generalizing z with
    | zero =>
      intro h
      injection h with h
      subst h
      rfl
    | succ m ih =>
      intro h
      simp only [SIReuler] at h
      cases hw : SIReuler p y0 m with
      | none => rw [hw] at h; simp at h
      | some w =>
        rw [hw, Option.some_bind] at h
        unfold SIReulerStep at h
        cases hd : SIRmodel p w with
        | none => rw [hd] at h; simp at h
        | some d =>
          rw [hd, Option.map_some'] at h
          injection h with h
          subst h
          have hz : sum3 (w.1 + d.1, w.2.1 + d.2.1, w.2.2 + d.2.2)
              = sum3 w + sum3 d := by
            simp only [sum3]; ring
          rw [hz, hSIR p w d hd, ih w hw, add_zero]

/-- C1 witness: the amended conservation law evaluated at concrete
inputs — a finite SIR derivative, a finite SIHRF derivative, and a
two-step integration run. -/
theorem claim_C1_witness :
    sum3 (-(1 / 2 : ℚ), -(1 / 2 : ℚ), (1 : ℚ)) = 0 ∧
    sum5 ((-1 : ℚ), (0 : ℚ), (-1 : ℚ), (2 : ℚ), (0 : ℚ)) = 0 ∧
    sum3 ((3 / 8 : ℚ), (1 / 8 : ℚ), (3 / 2 : ℚ)) = sum3 ((1 : ℚ), 1, 0) :=
  ⟨claim_C1_amended.1 ⟨1, 1, 2⟩ (1, 1, 1) _ (by norm_num [SIRmodel, pyDiv]),
   claim_C1_amended.2.1 ⟨1, 1, 1, 1, 0, 0, 2⟩ (1, 1, 1, 0, 0) _
     (by norm_num [SIHRFmodel, pyDiv]),
   claim_C1_amended.2.2 ⟨1, 1, 2⟩ (1, 1, 0) _ 2
     (by norm_num [SIReuler, SIReulerStep, SIRmodel, pyDiv])⟩

/-! ## Claim C6 -/

/-- C6 counterexample: the derivative functions contain no guard
against `S₀ ≤ 0`.  At the trial point with `S_0_model = 0` both
`SIR.model` and `SIHRF.model` divide by zero and return a non-finite
(NaN/Inf) vector at the state `(1, 1, 1)` resp. `(1, 1, 1, 0, 0)`. -/
theorem claim_C6_counterexample :
    SIRmodel ⟨1, 1, 0⟩ (1, 1, 1) = none ∧
    SIHRFmodel ⟨1, 1, 1, 1, 0, 0, 0⟩ (1, 1, 1, 0, 0) = none := by
  constructor <;> rfl

/-- C6 (amended): no model variant guards against `S₀ ≤ 0`.  The
derivative of `SIR.model` and of `SIHRF.model` is non-finite exactly
when the trial `S_0_model` is zero, and is a finite vector at every
other trial point and state — including `S_0_model < 0`, which passes
through unguarded. -/
theorem claim_C6_amended :
    ∀ (p : SIRParams) (q : SIHRFParams) (y : ℚ × ℚ × ℚ)
      (z : ℚ × ℚ × ℚ × ℚ × ℚ),
      (SIRmodel p y = none ↔ p.S_0 = 0) ∧
      (SIHRFmodel q z = none ↔ q.S_0 = 0) := by
  intro p q y z
  constructor
  · unfold SIRmodel pyDiv
    by_cases hS : p.S_0 = 0 <;> simp [hS]
  · unfold SIHRFmodel pyDiv
    by_cases hS : q.S_0 = 0 <;> simp [hS]

/-! ## Claim C8 -/

/-- C8 counterexample: `SIR.const_upperBoundR0` does NOT return
`R0bounds[0] - beta/gamma`.  With `R0bounds = (1, 5)` and trial point
`beta = 2, gamma = 1, S_0p = 1` it returns `5 - 2 = 3`, whereas the
claimed expression is `1 - 2 = -1`. -/
theorem claim_C8_counterexample :
    const_upperBoundR0 (1, 5) (2, 1, 1) ≠ (1 : ℚ) - 2 / 1 := by
  norm_num [const_upperBoundR0]

/-- C8 (amended): the upper-R0 constraint of the first SIR variant
reads the upper bound `R0bounds[1]`: on its single code path it returns
`R0bounds[1] - beta/gamma`, and whenever the two bounds differ this is
not the value `R0bounds[0] - beta/gamma` the spec suspected — the
copy-paste defect is absent from the code. -/
theorem claim_C8_amended :
    ∀ (rb : ℚ × ℚ) (beta gamma S_0p : ℚ),
      const_upperBoundR0 rb (beta, gamma, S_0p) = rb.2 - beta / gamma ∧
      (rb.1 ≠ rb.2 →
        const_upperBoundR0 rb (beta, gamma, S_0p) ≠ rb.1 - beta / gamma) := by
  intro rb beta gamma S_0p
  refine ⟨rfl, ?_⟩
  intro hne heq
  unfold const_upperBoundR0 at heq
  exact hne (by linarith)

/-- C8 witness: the amended statement evaluated at `R0bounds = (1, 5)`,
`beta = 2`, `gamma = 1`: the constraint value is `5 - 2`, and differs
from the lower-bound expression `1 - 2`. -/
theorem claim_C8_witness :
    const_upperBoundR0 (1, 5) (2, 1, 1) = 5 - 2 / 1 ∧
    const_upperBoundR0 (1, 5) (2, 1, 1) ≠ 1 - 2 / 1 :=
  ⟨(claim_C8_amended (1, 5) 2 1 1).1,
   (claim_C8_amended (1, 5) 2 1 1).2 (by norm_num)⟩

/-! ## Claim C4 -/

/-- C4 counterexample: the gamma inside the SIHRF constraint functions
is NOT the rho-blended aggregate used for the reported R0.  At the
trial point `beta = 1, gamma_I = 1/10, gamma_H = 0, omega = 0,
S0 = 1, delta = 0` with `rho = 1/2` and `gammaBounds = (0, 1)`, the
code's lower-gamma margin is `1/10` while the spec's formula gives
`1/20`. -/
theorem claim_C4_counterexample :
    const_lowerBound_gamma (0, 1) ⟨1, 1 / 10, 0, 0, 1, 0⟩ ≠
      spec_const_lowerBound_gamma (1 / 2) (0, 1) ⟨1, 1 / 10, 0, 0, 1, 0⟩ := by
  norm_num [const_lowerBound_gamma, spec_const_lowerBound_gamma,
    constraintGamma, aggregateGamma]

/-- C4 (amended): the four SIHRF inequality constraints are signed
margins (`value - lower_bound` and `upper_bound - value`) over a
derived gamma and the implied `R0 = beta/gamma`, but the gamma they
derive is `gamma_c = gamma_I + (1-delta)*gamma_H + delta*omega` — NOT
the rho-blended formula used for the reported R0, from which it differs
by `rho*gamma_I + (1-rho)*((1-delta)*gamma_H + delta*omega)`. -/
theorem claim_C4_amended :
    ∀ (gb rb : ℚ × ℚ) (rho : ℚ) (p : SIHRFPoint),
      const_lowerBound_gamma gb p = constraintGamma p - gb.1 ∧
      const_upperBound_gamma gb p = gb.2 - constraintGamma p ∧
      const_lowerBound_gamma gb p + const_upperBound_gamma gb p
        = gb.2 - gb.1 ∧
      const_lowerBound_R0 rb p = p.beta / constraintGamma p - rb.1 ∧
      const_upperBound_R0 rb p = rb.2 - p.beta / constraintGamma p ∧
      const_lowerBound_R0 rb p + const_upperBound_R0 rb p
        = rb.2 - rb.1 ∧
      constraintGamma p = aggregateGamma rho p +
        (rho * p.gamma_I +
          (1 - rho) * ((1 - p.delta) * p.gamma_H + p.delta * p.omega)) := by
  intro gb rb rho p
  refine ⟨rfl, rfl, ?_, rfl, rfl, ?_, ?_⟩
  · unfold const_lowerBound_gamma const_upperBound_gamma; ring
  · unfold const_lowerBound_R0 const_upperBound_R0; ring
  · unfold constraintGamma aggregateGamma; ring

/-! ## Claim C3 -/

/-- C3 counterexample: with a confirmed series that never reaches the
threshold (`nth = 10`, values `1` and `2`), `load_data` fails by
raising `IndexError` (positional access `index[0]` on the empty
filtered index) — not `DataAlignmentError`. -/
theorem claim_C3_counterexample :
    nth_index [(0, (1 : ℚ)), (1, 2)] 10 = Except.error AlignError.indexError ∧
    nth_index [(0, (1 : ℚ)), (1, 2)] 10 ≠
      Except.error AlignError.dataAlignmentError := by
  constructor
  · rfl
  · intro h
    exact AlignError.noConfusion (Except.error.inj h)

/-- C3 (amended): whenever the (multiplier-adjusted) confirmed series
never reaches the case threshold `nth`, data loading fails by raising
an `IndexError` from `self.confirmed[...].index[0]`; no
`DataAlignmentError` class exists in the source. -/
theorem claim_C3_amended :
    ∀ (confirmed : List (Nat × ℚ)) (nth : ℚ),
      (∀ p ∈ confirmed, p.2 < nth) →
      nth_index confirmed nth = Except.error AlignError.indexError := by
  intro confirmed nth hlt
  unfold nth_index
  have hfe : confirmed.filter (fun p => decide (nth ≤ p.2)) = [] := by
    rw [List.filter_eq_nil_iff]
    intro p hp
    simpa using not_le.mpr (hlt p hp)
  rw [hfe]
  rfl

/-- C3 witness: the amended statement evaluated on a concrete
below-threshold series. -/
theorem claim_C3_witness :
    nth_index [(3, (1 : ℚ))] 5 = Except.error AlignError.indexError :=
  claim_C3_amended [(3, (1 : ℚ))] 5 (by norm_num)

/-! ## Claim C10 -/

/-- C10: `LearnerSEIR.load_data` sets
`S_0 = R_0 - R_0 - I_0 = -I_0`; whenever the aligned first-day infected
count `I_0` is positive, the initial state
`[S_0, E_0, I_0, R_0]` handed to `solve_ivp` by `LearnerSEIR.loss` and
`LearnerSEIR.predict` has a negative susceptible compartment. -/
theorem claim_C10_theorem :
    ∀ (confirmed recovered fatal : List ℚ) (elag : Nat)
      (he : elag < confirmed.length) (h0 : 0 < confirmed.length)
      (hr : 0 < recovered.length) (hf : 0 < fatal.length),
      (learnerSEIRInit confirmed recovered fatal elag he h0 hr hf).S_0 =
        -(learnerSEIRInit confirmed recovered fatal elag he h0 hr hf).I_0 ∧
      (0 < (learnerSEIRInit confirmed recovered fatal elag he h0 hr hf).I_0 →
        (learnerSEIRInitState
          (learnerSEIRInit confirmed recovered fatal elag he h0 hr hf)).1 < 0) := by
  intro confirmed recovered fatal elag he h0 hr hf
  constructor
  · simp only [learnerSEIRInit]
    ring
  · intro hI
    simp only [learnerSEIRInitState, learnerSEIRInit] at hI ⊢
    linarith

/-- C10 witness: with aligned series `confirmed = [5, 7]`,
`recovered = [1]`, `fatal = [1]` and `elag = 1`, the infected count is
`I_0 = 3 > 0` and the susceptible compartment of the integration start
state is negative. -/
theorem claim_C10_witness :
    (learnerSEIRInitState
      (learnerSEIRInit [5, 7] [1] [1] 1 (by norm_num) (by norm_num)
        (by norm_num) (by norm_num))).1 < 0 :=
  (claim_C10_theorem [5, 7] [1] [1] 1 (by norm_num) (by norm_num)
    (by norm_num) (by norm_num)).2
    (by norm_num [learnerSEIRInit])

/-! ## Claim C9 -/

/-- C9: in `SIHRF.rollingHosp` the fatal snapshot is copied from the
recovered series (`F_actual = self.R_actual.copy()`, src line 561): for
every walk-forward date `d`, the estimator is invoked with an
`F_actual` equal to the `loc[:d]` restriction of the PRE-CALL recovered
series — not of the fatal series. -/
theorem claim_C9_theorem :
    ∀ (st : RHObj) (dates : List Nat),
      rollingHospInputs st dates =
        dates.map (fun d =>
          ⟨locUpTo st.I_actual d, locUpTo st.R_actual d,
           locUpTo st.R_actual d⟩) := by
  intro st dates
  unfold rollingHospInputs
  exact rollingHospLoop_fst st.I_actual st.R_actual st.R_actual dates st


/-! ## Claim C7 -/

/-- C7: `predict` is deterministic and idempotent.  Starting from any
object state (fitted parameters, aligned series, the leftover trial
fields), running `predict` a second time on the object mutated by the
first run returns a bit-identical prediction table, for both the `SIR`
and the `SIHRF` variant: the fields `predict` mutates (`*_model`,
`quarantine_loc`, `df`) are not among those the table is computed
from. -/
theorem claim_C7_theorem :
    ∀ (s : SIRObj) (t : SIHRFObj),
      (SIRpredict (SIRpredict s).1).2 = (SIRpredict s).2 ∧
      (SIHRFpredict (SIHRFpredict t).1).2 = (SIHRFpredict t).2 := by
  intro s t
  constructor <;> rfl

/-! ## Claim C2 -/

/-- C2 counterexample: occupancy is NOT `0` outside the occupied
window on every row.  On the synthetic unit-drop curve with
`hosp_rate = 1`, `days_to_hosp = 2`, `stay_duration = 3`, the `H`
column at row `0` is NaN (the shifts feed NaN into `cumsum`, which
preserves it), not `0`. -/
theorem claim_C2_counterexample :
    (calculateNB_H unitDropS 1 2 3).head? ≠ some (some 0) ∧
    (calculateNB_H unitDropS 1 2 3).head? = some none := by
  have h1 : (calculateNB_H unitDropS 1 2 3).head? = some none := by
    norm_num [calculateNB_H, hospDemand, hospExpire, unitDropS, pshift,
      psub, pscale, pcumsum, pcumsumAux, List.replicate_succ,
      List.take_succ_cons, List.cons_append, List.nil_append]
  refine ⟨?_, h1⟩
  rw [h1]
  intro hc
  exact Option.noConfusion (Option.some.inj hc)

/-- C2 (amended): on the synthetic 20-day curve with a single-day unit
drop at day `d = 7` and `hosp_rate = 1`, `days_to_hosp = 2`,
`stay_duration = 3`, `calculateNB` produces exactly one unit of demand
at day `d + days_to_hosp = 9`, exactly one unit of discharge at day
`d + days_to_hosp + stay_duration = 12`, occupancy `1` on the rows from
day `9` up to (excluding) day `12`, occupancy `0` on the other rows
past the initial lag window, and NaN — not `0` — on the first
`days_to_hosp + stay_duration + 1 = 6` rows. -/
theorem claim_C2_amended :
    hospDemand unitDropS 1 2 =
      [none, none, none, some 0, some 0, some 0, some 0, some 0, some 0,
       some 1, some 0, some 0, some 0, some 0, some 0, some 0, some 0,
       some 0, some 0, some 0] ∧
    hospExpire unitDropS 1 2 3 =
      [none, none, none, none, none, none, some 0, some 0, some 0,
       some 0, some 0, some 0, some 1, some 0, some 0, some 0, some 0,
       some 0, some 0, some 0] ∧
    calculateNB_H unitDropS 1 2 3 =
      [none, none, none, none, none, none, some 0, some 0, some 0,
       some 1, some 1, some 1, some 0, some 0, some 0, some 0, some 0,
       some 0, some 0, some 0] := by
  refine ⟨?_, ?_, ?_⟩ <;>
    norm_num [calculateNB_H, hospDemand, hospExpire, unitDropS, pshift,
      psub, pscale, pcumsum, pcumsumAux, List.replicate_succ,
      List.take_succ_cons, List.cons_append, List.nil_append]

/-! ## Claim C5 -/

/-- C5 counterexample: `extend_index` does NOT add `daysPredict` rows.
With observed index `[0, 1, 2]` and `daysPredict = 2`, the extended
index is `[0, 1, 2, 3]` — `pd.date_range` starts AT the last observed
date, so the outer join has `n + daysPredict - 1` rows, not
`n + daysPredict`. -/
theorem claim_C5_counterexample :
    (extend_index [0, 1, 2] 2).length ≠ [0, 1, 2].length + 2 := by decide

/-- C5 (amended): for an observed index of length `n` (strictly
increasing, nonempty) and horizon `daysPredict ≥ 1`, the extended index
of `predict` has exactly `n + daysPredict - 1` rows (the range shares
its first day with the last observed date); the actual-value columns
are empty (`none`) at every date past the last observed date; and the
simulated columns carry one value per row of the extended index. -/
theorem claim_C5_amended :
    ∀ (index : List Nat) (P : Nat) (h : index ≠ [])
      (hs : index.Sorted (· < ·)) (hP : 1 ≤ P)
      (actual : List (Nat × ℚ)),
      (extend_index index P).length = index.length + P - 1 ∧
      (∀ d : Nat, index.getLast h < d →
        (∀ q ∈ actual, q.1 ≤ index.getLast h) →
        reindexLookup actual d = none) ∧
      (∀ (f : Nat → ℚ × ℚ × ℚ),
        ((List.range (extend_index index P).length).map f).length =
          (extend_index index P).length) := by
  intro index P h hs hP actual
  have hEq : extend_index index P = index ++
      (date_range (index.getLast h) P).filter
        (fun d => decide (¬ d ∈ index)) := by
    unfold extend_index
    rw [List.getLast?_eq_getLast index h]
  refine ⟨?_, ?_, ?_⟩
  · obtain ⟨m, rfl⟩ : ∃ m, P = m + 1 := ⟨P - 1, by omega⟩
    rw [hEq, date_range_succ, List.length_append, List.filter_cons]
    have hmem : index.getLast h ∈ index := List.getLast_mem h
    have hfalse : (decide (¬ index.getLast h ∈ index)) = false := by
      simp [hmem]
    rw [hfalse]
    simp only [Bool.false_eq_true, if_false]
    have hall : (date_range (index.getLast h + 1) m).filter
        (fun d => decide (¬ d ∈ index)) =
        date_range (index.getLast h + 1) m := by
      rw [List.filter_eq_self]
      intro x hx
      simp only [decide_eq_true_eq]
      intro hxin
      have h1 := mem_le_getLast hs hxin h
      have h2 := mem_date_range hx
      omega
    rw [hall]
    have hlen : (date_range (index.getLast h + 1) m).length = m := by
      simp [date_range]
    omega
  · intro d hd hq
    unfold reindexLookup
    have hnone : actual.find? (fun p => decide (p.1 = d)) = none := by
      rw [List.find?_eq_none]
      intro x hx
      have h1 := hq x hx
      simp only [decide_eq_true_eq]
      omega
    rw [hnone]
    rfl
  · intro f
    simp

/-- C5 witness: the amended statement evaluated at the observed index
`[0, 1, 2]` with horizon `2` and a one-point actual series at date `0`:
the extended index has `3 + 2 - 1 = 4` rows and the actual column at the
forecast-only date `3` is empty. -/
theorem claim_C5_witness :
    (extend_index [0, 1, 2] 2).length = [0, 1, 2].length + 2 - 1 ∧
    reindexLookup [(0, (5 : ℚ))] 3 = none :=
  have h := claim_C5_amended [0, 1, 2] 2 (by decide) (by decide) (by decide)
    [(0, (5 : ℚ))]
  ⟨h.1, h.2.1 3 (by decide) (by norm_num)⟩
